import Mathlib

/-!
Verification development for the round-generation and distribution core of
the "2 Truths and a Lie" game server (`src/main.py`).

The Python module is shallowly embedded: its JSON values, the `json.loads`
parser and `json.dumps` serializer it relies on, the session history store
(Redis backend and in-memory fallback), the prompt construction, the
response extraction/parsing pipeline of `generate_new_round`, the preload
cache logic of `preload_next_round`, and the SSE fan-out of
`broadcast_message` all become executable Lean definitions, and the spec's
claims become theorems about those definitions.
-/

set_option maxRecDepth 8192

namespace TwoTruths

/-! ## JSON values

`src/main.py` passes parsed JSON around as plain Python values (dicts,
lists, strings, numbers, booleans, None).  `Json` models exactly those.
Numbers keep their source lexeme: the claims never inspect numeric values,
only structure, and this avoids modelling float normalisation. -/

inductive Json where
  | null : Json
  | bool (b : Bool) : Json
  | num (lexeme : String) : Json
  | str (s : String) : Json
  | arr (elems : List Json) : Json
  | obj (fields : List (String × Json)) : Json
deriving Repr, Inhabited

/-- Python truthiness of a value (`if round_data:`, `elif next_round:`):
`None`, `False`, empty containers and the empty string are falsy; a number
is falsy when its mantissa is all zeros. -/
def pyTruthy : Json → Bool
  | .null => false
  | .bool b => b
  | .num lexeme =>
      -- zero iff no nonzero digit occurs in the mantissa (before any exponent)
      (lexeme.data.takeWhile (fun c => c ≠ 'e' ∧ c ≠ 'E')).any
        (fun c => '1' ≤ c ∧ c ≤ '9')
  | .str s => !s.data.isEmpty
  | .arr elems => !elems.isEmpty
  | .obj fields => !fields.isEmpty

/-- Python truthiness of a string variable (`if not claude_prompt`,
`if history_text:`): nonempty is truthy. -/
def pyTruthyStr (s : String) : Bool := !s.data.isEmpty

/-- Whether `needle` occurs as a prefix of `hay`. -/
def isPrefixCheck : List Char → List Char → Bool
  | [], _ => true
  | _ :: _, [] => false
  | a :: as, b :: bs => a = b && isPrefixCheck as bs

/-- Whether `needle` occurs as a contiguous subsequence of `hay`. -/
def containsSeq (hay needle : List Char) : Bool :=
  match hay with
  | [] => needle.isEmpty
  | _ :: tl => isPrefixCheck needle hay || containsSeq tl needle

/-- Python `==` between a string literal and an arbitrary value: true only
for an equal string (values of other types never equal a string). -/
def pyEqStr (key : String) : Json → Bool
  | .str s => s = key
  | _ => false

/-- `d.get(key, default)` on a Python dict (the statements the game renders
are dicts).  The claims only apply it to dict-shaped values; `main.py`
would raise `AttributeError` on anything else, a path no claim exercises. -/
def pyDictGet (v : Json) (key : String) (dflt : Json) : Json :=
  match v with
  | .obj fields =>
      match fields.find? (fun kv => kv.1 = key) with
      | some kv => kv.2
      | none => dflt
  | _ => dflt

/-- `key in v` for a string key, as Python's `in` operator behaves on each
runtime type: key lookup on dicts, membership on lists, substring test on
strings, and `TypeError` on non-containers (line 442 of `main.py` runs it
on the parsed response, whose type the model controls). -/
def pyInStr (key : String) (v : Json) : Except String Bool :=
  match v with
  | .obj fields => .ok (fields.any (fun kv => kv.1 = key))
  | .arr elems => .ok (elems.any (pyEqStr key))
  | .str s => .ok (containsSeq s.data key.data)
  | .num _ => .error "TypeError: argument of type int is not iterable"
  | .bool _ => .error "TypeError: argument of type bool is not iterable"
  | .null => .error "TypeError: argument of type NoneType is not iterable"

/-- `v[key]` for a string key: dict lookup (Python dicts have unique keys,
as does the parser's output below), `TypeError` on every other type. -/
def pySubscriptStr (v : Json) (key : String) : Except String Json :=
  match v with
  | .obj fields =>
      match fields.find? (fun kv => kv.1 = key) with
      | some kv => .ok kv.2
      | none => .error ("KeyError: " ++ key)
  | _ => .error "TypeError: indices must be integers"

/-- `iter(v)`: lists yield their elements, strings their characters, dicts
their keys; other types raise `TypeError` (the statements-topics loop at
lines 450-455 of `main.py` iterates a value of model-controlled type). -/
def pyIter : Json → Except String (List Json)
  | .arr elems => .ok elems
  | .str s => .ok (s.data.map (fun c => .str (String.singleton c)))
  | .obj fields => .ok (fields.map (fun kv => .str kv.1))
  | .num _ => .error "TypeError: int object is not iterable"
  | .bool _ => .error "TypeError: bool object is not iterable"
  | .null => .error "TypeError: NoneType object is not iterable"

/-- Python type names, for the exception messages modelled below. -/
def pyTypeName : Json → String
  | .null => "NoneType"
  | .bool _ => "bool"
  | .num _ => "int"
  | .str _ => "str"
  | .arr _ => "list"
  | .obj _ => "dict"

/-! ## `json.loads`

A recursive-descent parser for the JSON grammar, fuel-indexed to satisfy
the termination checker (the fuel passed by `jsonLoads` is always
sufficient, since every two fuel units consume at least one character).
Error strings follow CPython's `json` messages, without the line/column
suffix: the messages never include the parsed document itself. -/

/-- JSON inter-token whitespace (space, tab, newline, carriage return). -/
def skipWs : List Char → List Char
  | [] => []
  | c :: rest =>
      if c = ' ' ∨ c = '\t' ∨ c = '\n' ∨ c = '\r' then skipWs rest else c :: rest

/-- Value of a hex digit, if any. -/
def hexVal (c : Char) : Option Nat :=
  if '0' ≤ c ∧ c ≤ '9' then some (c.toNat - 48)
  else if 'a' ≤ c ∧ c ≤ 'f' then some (c.toNat - 87)
  else if 'A' ≤ c ∧ c ≤ 'F' then some (c.toNat - 55)
  else none

/-- Single-character JSON escapes (`\u` is handled separately). -/
def escDecode (e : Char) : Option Char :=
  if e = '"' then some '"'
  else if e = '\\' then some '\\'
  else if e = '/' then some '/'
  else if e = 'n' then some '\n'
  else if e = 't' then some '\t'
  else if e = 'r' then some '\r'
  else if e = 'b' then some (Char.ofNat 8)
  else if e = 'f' then some (Char.ofNat 12)
  else none

/-- Body of a JSON string literal after its opening quote: the decoded
characters and the input after the closing quote; `none` on an
unterminated string or a bad escape. -/
def parseStringBody : List Char → Option (List Char × List Char)
  | [] => none
  | c :: rest =>
      if c = '"' then some ([], rest)
      else if c = '\\' then
        match rest with
        | [] => none
        | e :: rest2 =>
            if e = 'u' then
              match rest2 with
              | h1 :: h2 :: h3 :: h4 :: rest3 =>
                  match hexVal h1, hexVal h2, hexVal h3, hexVal h4 with
                  | some a, some b, some c2, some d =>
                      match parseStringBody rest3 with
                      | some (s, rr) =>
                          some (Char.ofNat (4096 * a + 256 * b + 16 * c2 + d) :: s, rr)
                      | none => none
                  | _, _, _, _ => none
              | _ => none
            else
              match escDecode e with
              | some ch =>
                  match parseStringBody rest2 with
                  | some (s, rr) => some (ch :: s, rr)
                  | none => none
              | none => none
      else
        match parseStringBody rest with
        | some (s, rr) => some (c :: s, rr)
        | none => none

/-- Optional fraction and exponent parts of a JSON number (each only
consumed when followed by at least one digit, as in CPython's
`NUMBER_RE`). -/
def parseFracExp (cs : List Char) : List Char × List Char :=
  let fracSplit : List Char × List Char :=
    match cs with
    | c :: r =>
        if c = '.' then
          let ds := r.takeWhile Char.isDigit
          if ds = [] then ([], cs) else ('.' :: ds, r.dropWhile Char.isDigit)
        else ([], cs)
    | [] => ([], cs)
  let expSplit : List Char × List Char :=
    match fracSplit.2 with
    | c :: r =>
        if c = 'e' ∨ c = 'E' then
          let signSplit : List Char × List Char :=
            match r with
            | s :: rr => if s = '+' ∨ s = '-' then ([s], rr) else ([], r)
            | [] => ([], r)
          let ds := signSplit.2.takeWhile Char.isDigit
          if ds = [] then ([], fracSplit.2)
          else (c :: signSplit.1 ++ ds, signSplit.2.dropWhile Char.isDigit)
        else ([], fracSplit.2)
    | [] => ([], fracSplit.2)
  (fracSplit.1 ++ expSplit.1, expSplit.2)

/-- A JSON number lexeme: optional minus, then `0` or a nonzero-led digit
run (maximal munch stops after a leading `0`, as in CPython), then
optional fraction/exponent. -/
def parseNumber (cs : List Char) : Option (String × List Char) :=
  let signSplit : List Char × List Char :=
    match cs with
    | c :: r => if c = '-' then (['-'], r) else ([], cs)
    | [] => ([], cs)
  match signSplit.2 with
  | [] => none
  | c :: r =>
      if c = '0' then
        let fe := parseFracExp r
        some (⟨signSplit.1 ++ '0' :: fe.1⟩, fe.2)
      else if c.isDigit then
        let ds := signSplit.2.takeWhile Char.isDigit
        let fe := parseFracExp (signSplit.2.dropWhile Char.isDigit)
        some (⟨signSplit.1 ++ ds ++ fe.1⟩, fe.2)
      else none

/-- Insert a parsed object field with Python-dict semantics: a repeated key
keeps its first position but takes the latest value. -/
def objInsert (fields : List (String × Json)) (k : String) (v : Json) :
    List (String × Json) :=
  if fields.any (fun kv => kv.1 = k) then
    fields.map (fun kv => if kv.1 = k then (k, v) else kv)
  else fields ++ [(k, v)]

mutual

/-- Parse one JSON value (leading whitespace allowed), returning it with
the remaining input. -/
def parseValue (fuel : Nat) (cs : List Char) : Except String (Json × List Char) :=
  match fuel with
  | 0 => .error "Expecting value"
  | fuel' + 1 =>
      match skipWs cs with
      | [] => .error "Expecting value"
      | c :: rest =>
          if c = '"' then
            match parseStringBody rest with
            | some (content, rr) => .ok (.str ⟨content⟩, rr)
            | none => .error "Unterminated string starting at"
          else if c = '{' then
            match skipWs rest with
            | c2 :: rest2 =>
                if c2 = '}' then .ok (.obj [], rest2)
                else parseFields fuel' (c2 :: rest2) []
            | [] => .error "Expecting property name enclosed in double quotes"
          else if c = '[' then
            match skipWs rest with
            | c2 :: rest2 =>
                if c2 = ']' then .ok (.arr [], rest2)
                else parseElems fuel' (c2 :: rest2) []
            | [] => .error "Expecting value"
          else if c = 't' then
            match rest with
            | 'r' :: 'u' :: 'e' :: rr => .ok (.bool true, rr)
            | _ => .error "Expecting value"
          else if c = 'f' then
            match rest with
            | 'a' :: 'l' :: 's' :: 'e' :: rr => .ok (.bool false, rr)
            | _ => .error "Expecting value"
          else if c = 'n' then
            match rest with
            | 'u' :: 'l' :: 'l' :: rr => .ok (.null, rr)
            | _ => .error "Expecting value"
          else
            match parseNumber (c :: rest) with
            | some (lexeme, rr) => .ok (.num lexeme, rr)
            | none => .error "Expecting value"

/-- Parse the elements of a non-empty JSON array, accumulating into `acc`. -/
def parseElems (fuel : Nat) (cs : List Char) (acc : List Json) :
    Except String (Json × List Char) :=
  match fuel with
  | 0 => .error "Expecting value"
  | fuel' + 1 =>
      match parseValue fuel' cs with
      | .error e => .error e
      | .ok (v, rest) =>
          match skipWs rest with
          | c :: rest2 =>
              if c = ',' then parseElems fuel' rest2 (acc ++ [v])
              else if c = ']' then .ok (.arr (acc ++ [v]), rest2)
              else .error "Expecting delimiter"
          | [] => .error "Expecting delimiter"

/-- Parse the fields of a non-empty JSON object, accumulating into `acc`. -/
def parseFields (fuel : Nat) (cs : List Char) (acc : List (String × Json)) :
    Except String (Json × List Char) :=
  match fuel with
  | 0 => .error "Expecting property name enclosed in double quotes"
  | fuel' + 1 =>
      match skipWs cs with
      | [] => .error "Expecting property name enclosed in double quotes"
      | c :: rest =>
          if c = '"' then
            match parseStringBody rest with
            | some (key, rest2) =>
                match skipWs rest2 with
                | c2 :: rest3 =>
                    if c2 = ':' then
                      match parseValue fuel' rest3 with
                      | .error e => .error e
                      | .ok (v, rest4) =>
                          match skipWs rest4 with
                          | c3 :: rest5 =>
                              if c3 = ',' then
                                parseFields fuel' rest5 (objInsert acc ⟨key⟩ v)
                              else if c3 = '}' then
                                .ok (.obj (objInsert acc ⟨key⟩ v), rest5)
                              else .error "Expecting delimiter"
                          | [] => .error "Expecting delimiter"
                    else .error "Expecting colon delimiter"
                | [] => .error "Expecting colon delimiter"
            | none => .error "Unterminated string starting at"
          else .error "Expecting property name enclosed in double quotes"

end

/-- `json.loads`: parse a complete document, rejecting trailing input
("Extra data", as CPython reports it). -/
def jsonLoads (s : String) : Except String Json :=
  match parseValue (2 * s.data.length + 2) s.data with
  | .error e => .error e
  | .ok (v, rest) => if skipWs rest = [] then .ok v else .error "Extra data"

/-! ## `json.dumps`

Default CPython settings: separators `", "` and `": "`, `ensure_ascii`
escaping of everything outside printable ASCII. -/

/-- Lowercase hex digit. -/
def hexDigit (n : Nat) : Char :=
  if n < 10 then Char.ofNat (48 + n) else Char.ofNat (87 + n)

/-- Escape one character of a JSON string being serialized. -/
def escapeCharJson (c : Char) : List Char :=
  if c = '"' then ['\\', '"']
  else if c = '\\' then ['\\', '\\']
  else if c = '\n' then ['\\', 'n']
  else if c = '\t' then ['\\', 't']
  else if c = '\r' then ['\\', 'r']
  else if c = Char.ofNat 8 then ['\\', 'b']
  else if c = Char.ofNat 12 then ['\\', 'f']
  else if c.toNat < 32 ∨ 126 < c.toNat then
    ['\\', 'u', hexDigit (c.toNat / 4096 % 16), hexDigit (c.toNat / 256 % 16),
      hexDigit (c.toNat / 16 % 16), hexDigit (c.toNat % 16)]
  else [c]

/-- Serialize a string with its quotes. -/
def jsonDumpString (s : String) : String :=
  ⟨'"' :: (s.data.map escapeCharJson).flatten ++ ['"']⟩

/-- Join strings with a separator (Python `sep.join(parts)`). -/
def joinSep (sep : String) : List String → String
  | [] => ""
  | [s] => s
  | s :: rest => s ++ sep ++ joinSep sep rest

mutual

/-- `json.dumps` with CPython's defaults: separators `", "` and `": "`,
`ensure_ascii` escaping. -/
def jsonDumps : Json → String
  | .null => "null"
  | .bool true => "true"
  | .bool false => "false"
  | .num lexeme => lexeme
  | .str s => jsonDumpString s
  | .arr elems => "[" ++ jsonDumpsElems elems ++ "]"
  | .obj fields => "\x7b" ++ jsonDumpsFields fields ++ "\x7d"

/-- Array elements joined by `", "`. -/
def jsonDumpsElems : List Json → String
  | [] => ""
  | [v] => jsonDumps v
  | v :: rest => jsonDumps v ++ ", " ++ jsonDumpsElems rest

/-- Object fields as `"key": value` joined by `", "`. -/
def jsonDumpsFields : List (String × Json) → String
  | [] => ""
  | [kv] => jsonDumpString kv.1 ++ ": " ++ jsonDumps kv.2
  | kv :: rest => jsonDumpString kv.1 ++ ": " ++ jsonDumps kv.2 ++ ", " ++ jsonDumpsFields rest

end

/-! ## History store (`get_session_history` / `update_session_history`)

`main.py` keeps per-session history either in Redis (a hash field
`round_count` plus a most-recent-first list trimmed to
`REDIS_MAX_HISTORY`) or, when Redis is unavailable, in the process-local
dict `session_history`. -/

/-- `REDIS_MAX_HISTORY` (line 123). -/
def REDIS_MAX_HISTORY : Nat := 100

/-- A session's history as the callers of the store see it. -/
structure History where
  round_count : Nat
  rounds : List Json
deriving Repr, Inhabited

/-- The in-memory branch of `update_session_history` (lines 225-233, also
the Redis-failure fallback at lines 253-258): append the statements at the
end of `rounds`, increment the count, and when the list exceeds
`REDIS_MAX_HISTORY` keep only its last `REDIS_MAX_HISTORY` entries
(`rounds[-REDIS_MAX_HISTORY:]`). -/
def update_session_history_memory (h : History) (statements : Json) : History :=
  let rounds := h.rounds ++ [statements]
  { round_count := h.round_count + 1,
    rounds :=
      if REDIS_MAX_HISTORY < rounds.length then
        rounds.drop (rounds.length - REDIS_MAX_HISTORY)
      else rounds }

/-- The Redis branch of `update_session_history` (lines 235-250):
`hincrby` the count, `lpush` the statements (most-recent-first) and
`ltrim 0 (REDIS_MAX_HISTORY - 1)`. -/
def update_session_history_redis (h : History) (statements : Json) : History :=
  { round_count := h.round_count + 1,
    rounds := (statements :: h.rounds).take REDIS_MAX_HISTORY }

/-- `update_session_history(session_id, statements)` (lines 214-258),
branching on whether the Redis client is configured. -/
def update_session_history (useRedis : Bool) (h : History) (statements : Json) :
    History :=
  if useRedis then update_session_history_redis h statements
  else update_session_history_memory h statements

/-- The Redis keys backing one session, as the store operations touch
them: the session hash's `round_count` field (`none` when the key does not
exist) and the statements list. -/
structure RedisSessionStore where
  sessionRecord : Option Nat
  statements : List Json
deriving Repr

/-- The Redis branch of `get_session_history` (lines 178-207): initialize
a missing session record with count 0 (writing it back), then return the
count and `lrange 0 (REDIS_MAX_HISTORY - 1)` of the statements list. -/
def get_session_history_redis (s : RedisSessionStore) :
    History × RedisSessionStore :=
  match s.sessionRecord with
  | none =>
      ({ round_count := 0, rounds := s.statements.take REDIS_MAX_HISTORY },
        { s with sessionRecord := some 0 })
  | some n =>
      ({ round_count := n, rounds := s.statements.take REDIS_MAX_HISTORY }, s)

/-- The Redis branch of the `reset` action in `manage_session` (lines
883-907): read the count (`hget`, defaulting to 0), delete the session
keys, re-create the session hash with count 0, and report the cleared
count. -/
def manage_session_reset_redis (s : RedisSessionStore) :
    RedisSessionStore × String :=
  let round_count := s.sessionRecord.getD 0
  ({ sessionRecord := some 0, statements := [] },
    "Session reset. Cleared " ++ toString round_count ++ " rounds.")

/-- The in-memory branch of the `reset` action in `manage_session` (lines
911-920).  CPython decides a name's scope at compile time: because line
915 assigns `session_history` and `manage_session` declares only
`current_session_id` global, `session_history` is a local variable of
`manage_session` throughout the function, and it is unbound when line 914
reads `session_history["round_count"]`.  The local environment is made
explicit here: the read raises `UnboundLocalError` before any mutation,
so the function returns the exception and the module-level history is
untouched (even the dead `some` branch would only rebind the local).
Result: (the response or the escaping exception, the module-level
`session_history` after the call). -/
def manage_session_reset_memory (session_history : History) :
    Except String String × History :=
  let localSessionHistory : Option History := none
  match localSessionHistory with
  | none =>
      (.error "UnboundLocalError: cannot access local variable session_history where it is not associated with a value",
        session_history)
  | some old =>
      (.ok ("Session reset. Cleared " ++ toString old.round_count ++ " rounds."),
        session_history)

/-! ## Prompt construction (`generate_new_round`, lines 292-320) -/

/-- Concatenation of a list of strings (the `+=` accumulation loops). -/
def joinAll : List String → String
  | [] => ""
  | s :: rest => s ++ joinAll rest

/-- Python `str()` of a value, as an f-string renders it.  Exact for
strings, booleans, `None` and integer lexemes — the shapes the game's
statements use; containers fall back to their JSON rendering (CPython
would use `repr` with single quotes, a difference no claim touches). -/
def pyStrOf : Json → String
  | .str s => s
  | .bool true => "True"
  | .bool false => "False"
  | .null => "None"
  | .num lexeme => lexeme
  | v => jsonDumps v

/-- The statements of one stored round, as the history-rendering loop
iterates them (line 303 `for stmt in prev_round`).  Every round the store
receives is the parsed `statements` value; the claims only exercise
list-shaped rounds, and non-lists are rendered as empty here. -/
def roundStatements : Json → List Json
  | .arr elems => elems
  | _ => []

/-- One `- LIE: …` / `- TRUTH: …` line (lines 304-305). -/
def renderStatement (stmt : Json) : String :=
  let is_lie := pyTruthy (pyDictGet stmt "isLie" (Json.bool false))
  "- " ++ (if is_lie then "LIE" else "TRUTH") ++ ": "
    ++ pyStrOf (pyDictGet stmt "text" (Json.str "Unknown")) ++ "\n"

/-- The `for idx, prev_round in enumerate(recent_rounds)` loop (lines
300-305): each round rendered under a `Round {round_idx}:` header, with
`round_idx = round_count - len(recent_rounds) + idx + 1` computed over the
integers. -/
def renderRoundsFrom (round_count n idx : Nat) : List Json → String
  | [] => ""
  | prev_round :: rest =>
      "Round " ++ toString ((round_count : Int) - (n : Int) + (idx : Int) + 1) ++ ":\n"
        ++ joinAll ((roundStatements prev_round).map renderStatement)
        ++ renderRoundsFrom round_count n (idx + 1) rest

/-- `history_text` (lines 293-306): empty for an empty history, otherwise
the header, the rendering of the first 15 stored rounds
(`history["rounds"][:15]`), and the no-overlap instruction. -/
def buildHistoryText (h : History) : String :=
  if 0 < h.rounds.length then
    let recent_rounds := h.rounds.take 15
    "Here are the previous statements used in this session:\n"
      ++ renderRoundsFrom h.round_count recent_rounds.length 0 recent_rounds
      ++ "\nIMPORTANT: You've now seen " ++ toString recent_rounds.length
      ++ " previous rounds. Please generate completely new statements that don't overlap with ANY previous topics or facts."
  else ""

/-- `easter_egg_instruction` (lines 310-313): non-empty exactly when the
round number is divisible by 3. -/
def easterEggInstruction (round_number : Nat) : String :=
  if round_number % 3 = 0 then
    "\n\nIMPORTANT: This is set number " ++ toString round_number
      ++ ", which is divisible by 3. PLEASE INCLUDE AN EASTER EGG about Erin and John Poore as described in instruction #7."
  else ""

/-- `prompt_to_send` (lines 316-320) without its trailing
`easter_egg_instruction`; `promptToSend` below appends it, as both
f-strings do. -/
def promptBase (claude_prompt : String) (h : History) : String :=
  let round_number := h.round_count + 1
  let history_text := buildHistoryText h
  if pyTruthyStr history_text then
    claude_prompt ++ "\n\n" ++ history_text
      ++ "\n\nIMPORTANT: DO NOT repeat any of the facts or topics above. This is round "
      ++ toString round_number ++ ", so ensure complete variety."
  else
    claude_prompt ++ "\n\nThis is round " ++ toString round_number ++ "."

/-- `prompt_to_send` (lines 316-320): the payload handed to the model. -/
def promptToSend (claude_prompt : String) (h : History) : String :=
  promptBase claude_prompt h ++ easterEggInstruction (h.round_count + 1)

/-! ## Response extraction and parsing (`generate_new_round`, lines
390-472) -/

/-- Python `str.strip()` whitespace. -/
def isPyWs (c : Char) : Bool :=
  c = ' ' ∨ c = '\t' ∨ c = '\n' ∨ c = '\r' ∨ c = Char.ofNat 11 ∨ c = Char.ofNat 12

/-- Python `str.strip()`: drop leading and trailing whitespace. -/
def pyStrip (s : String) : String :=
  ⟨((s.data.dropWhile isPyWs).reverse.dropWhile isPyWs).reverse⟩

/-- Split at the first occurrence of three consecutive backticks:
`(text before, text after)`, or `none` when there is none. -/
def splitAtTripleBacktick : List Char → Option (List Char × List Char)
  | [] => none
  | c1 :: rest =>
      match rest with
      | c2 :: c3 :: rest2 =>
          if c1 = '`' ∧ c2 = '`' ∧ c3 = '`' then some ([], rest2)
          else
            match splitAtTripleBacktick rest with
            | some (pre, post) => some (c1 :: pre, post)
            | none => none
      | _ => none

/-- Whether the next two characters are backticks. -/
def twoBackticks : List Char → Bool
  | a :: b :: _ => a = '`' && b = '`'
  | _ => false

/-- Whether the next four characters are `json`. -/
def startsWithJson : List Char → Bool
  | 'j' :: 's' :: 'o' :: 'n' :: _ => true
  | _ => false

/-- The scanner behind `re.findall(r"β€Ή```(?:json)?(.*?)```β€Ί", text,
re.DOTALL)` (line 394-395, pattern quoted loosely here): at an opening
triple backtick, optionally consume a literal `json` (the greedy optional
group), capture lazily up to the first closing triple backtick, and
continue after it; when no closing fence exists the engine moves its
start position one character forward, which cannot create a match out of
the consumed `json` since those characters hold no backtick.  Fuel is the
input length, and every step consumes at least one character. -/
def findCodeBlocksAux : Nat → List Char → List (List Char) → List (List Char)
  | 0, _, acc => acc.reverse
  | fuel + 1, cs, acc =>
      match cs with
      | [] => acc.reverse
      | c :: rest =>
          if c = '`' ∧ twoBackticks rest then
            let after := rest.drop 2
            let after2 := if startsWithJson after then after.drop 4 else after
            match splitAtTripleBacktick after2 with
            | some (content, post) => findCodeBlocksAux fuel post (content :: acc)
            | none => findCodeBlocksAux fuel rest acc
          else findCodeBlocksAux fuel rest acc

/-- `code_blocks` (line 395). -/
def findCodeBlocks (s : String) : List String :=
  (findCodeBlocksAux (s.data.length + 1) s.data []).map (fun cs => (⟨cs⟩ : String))

/-- Python `str.find` of a single character: first index or `-1`. -/
def pyFind (cs : List Char) (c : Char) : Int :=
  match cs.findIdx? (fun x => x = c) with
  | some i => (i : Int)
  | none => -1

/-- Python `str.rfind` of a single character: last index or `-1`. -/
def pyRFind (cs : List Char) (c : Char) : Int :=
  match cs.reverse.findIdx? (fun x => x = c) with
  | some i => (cs.length : Int) - 1 - (i : Int)
  | none => -1

/-- `potential_json` (lines 392-412): the last fenced code block,
stripped, when any exist; else the slice from the first `{` to the last
`}` when `json_start >= 0 and json_end > json_start`; else the whole
response text. -/
def extractPotentialJson (response_text : String) : String :=
  if !(findCodeBlocks response_text).isEmpty then
    pyStrip ((findCodeBlocks response_text).getLast?.getD "")
  else if 0 ≤ pyFind response_text.data '{' ∧
      pyFind response_text.data '{' < pyRFind response_text.data '}' + 1 then
    ⟨(response_text.data.drop (pyFind response_text.data '{').toNat).take
      (pyRFind response_text.data '}' + 1 - pyFind response_text.data '{').toNat⟩
  else response_text

/-- Python `str.replace` of the two-character sequence backslash-quote by
a quote, left to right. -/
def stripEscapedQuotes : List Char → List Char
  | [] => []
  | '\\' :: '"' :: rest => '"' :: stripEscapedQuotes rest
  | c :: rest => c :: stripEscapedQuotes rest

/-- `cleaned_json` (lines 422-432): the repair pass after a failed parse —
strip whitespace and, when the sequence backslash-quote occurs, replace
each occurrence by a bare quote. -/
def repairJson (potential_json : String) : String :=
  let cleaned_json := pyStrip potential_json
  if containsSeq cleaned_json.data ['\\', '"'] then
    ⟨stripEscapedQuotes cleaned_json.data⟩
  else cleaned_json

/-- Lines 414-438: parse the extracted text; on `JSONDecodeError` run the
single repair pass and parse the repaired text (line 436 parses
`json_text` again in either case — a repetition of the successful parse
on the success path). -/
def processResponse (response_text : String) : Except String Json :=
  match jsonLoads (extractPotentialJson response_text) with
  | .ok _ => jsonLoads (extractPotentialJson response_text)
  | .error _ => jsonLoads (repairJson (extractPotentialJson response_text))

/-! ## `generate_new_round` (lines 260-493) -/

/-- Outcome of the opaque `anthropic_client.messages.create` call: the
response text, or one of the exception classes the function catches
(lines 475-489). -/
inductive ApiOutcome where
  | ok (response_text : String)
  | connectionError (msg : String)
  | rateLimitError (msg : String)
  | authError (msg : String)
  | statusError (status_code : Int)
  | unexpectedError (msg : String)
deriving Repr, DecidableEq

/-- The distinct `return {"error": ...}` exits of `generate_new_round`:
lines 284 and 287 (preconditions), 477, 480, 483, 486, 489 (the caught
exceptions, `apiUnexpected` also covering an exception raised by the
statements-topics loop after a successful parse), and 472 (parse
failure). -/
inductive GenError where
  | clientNotConfigured
  | promptNotLoaded
  | apiConnection (msg : String)
  | apiRateLimit (msg : String)
  | apiAuth (msg : String)
  | apiStatus (status_code : Int)
  | apiUnexpected (msg : String)
  | parseFailure (msg : String)
deriving Repr, DecidableEq

/-- The `error` string of each exit, exactly as the f-strings build it. -/
def genErrorMessage : GenError → String
  | .clientNotConfigured => "Anthropic client not initialized. Check API key."
  | .promptNotLoaded => "Claude prompt not loaded. Check config.yaml."
  | .apiConnection m => "API Connection Error: " ++ m
  | .apiRateLimit m => "API Rate Limit Error: " ++ m
  | .apiAuth m => "API Authentication Error: " ++ m ++ ". Check your API key."
  | .apiStatus c => "API Status Error: " ++ toString c
  | .apiUnexpected m => "Unexpected API Error: " ++ m
  | .parseFailure m => "Failed to parse response from LLM: " ++ m

/-- The Python value `generate_new_round` actually returns: the parsed
round on success, `{"error": message}` otherwise (its callers test
`isinstance(round_data, dict) and "error" in round_data`). -/
def genReturnValue (r : Except GenError Json) : Json :=
  match r with
  | .error e => Json.obj [("error", Json.str (genErrorMessage e))]
  | .ok v => v

/-- The module state `generate_new_round` reads: whether
`anthropic_client` is initialized, the loaded `claude_prompt` (empty when
not loaded — both are falsy), whether `redis_client` is configured, and
the opaque model call's outcome. -/
structure GenEnv where
  clientConfigured : Bool
  claude_prompt : String
  useRedis : Bool
  apiOutcome : ApiOutcome

/-- What one call to `generate_new_round` produces and does: its return
value, the session history afterwards, whether the model call was
reached, and the prompt payload sent to it (`none` when the preconditions
fail before the call). -/
structure GenOutput where
  result : Except GenError Json
  history : History
  modelCalled : Bool
  sentPrompt : Option String

/-- Lines 441-443: `statements = []`, overwritten by
`round_data["statements"]` when the `in` test succeeds; both the `in`
test and the subscript can raise `TypeError` on model-controlled
non-dict payloads, which the enclosing `except Exception` turns into an
unexpected-error result. -/
def extractStatements (round_data : Json) : Except String Json :=
  match pyInStr "statements" round_data with
  | .error m => .error m
  | .ok false => .ok (Json.arr [])
  | .ok true => pySubscriptStr round_data "statements"

/-- One iteration of the statement-topics logging loop (lines 451-455):
`stmt.get("text", "")` then `text.split(" ")[:3]`; raises
`AttributeError` when `stmt` is not a dict or when `text` is not a
string. -/
def stmtTopic (stmt : Json) : Except String String :=
  match stmt with
  | .obj _ =>
      match pyDictGet stmt "text" (Json.str "") with
      | .str text =>
          .ok (joinSep " " ((text.split (fun c => c = ' ')).take 3) ++ "...")
      | other =>
          .error ("AttributeError: " ++ pyTypeName other ++ " object has no attribute split")
  | other =>
      .error ("AttributeError: " ++ pyTypeName other ++ " object has no attribute get")

/-- The loop body over the iterated statements: stops at the first
raising iteration, as the exception aborts the loop. -/
def topicsOf : List Json → Except String (List String)
  | [] => .ok []
  | stmt :: rest =>
      match stmtTopic stmt with
      | .error e => .error e
      | .ok t =>
          match topicsOf rest with
          | .error e => .error e
          | .ok ts => .ok (t :: ts)

/-- The statement-topics logging loop (lines 450-455), run after the
history update; an exception here escapes to the outer handler. -/
def topicsLog (statements : Json) : Except String (List String) :=
  match pyIter statements with
  | .error m => .error m
  | .ok items => topicsOf items

/-- `generate_new_round()` (lines 260-493).  The precondition checks come
first and return before the model call; each caught API exception maps to
its error result with the history untouched; on a successful parse the
statements are extracted (line 441-443), the history updated (line 447),
and the topics loop runs (lines 450-455) — an exception in it reaches the
outer `except Exception` (line 487) after the history was already
updated.  Redis prompt/response logging (lines 336-347, 377-388) absorbs
its own failures and touches no state modelled here. -/
def generate_new_round (env : GenEnv) (history : History) : GenOutput :=
  if !env.clientConfigured then
    { result := .error .clientNotConfigured, history := history,
      modelCalled := false, sentPrompt := none }
  else if !pyTruthyStr env.claude_prompt then
    { result := .error .promptNotLoaded, history := history,
      modelCalled := false, sentPrompt := none }
  else
    let prompt_to_send := promptToSend env.claude_prompt history
    match env.apiOutcome with
    | .connectionError m =>
        { result := .error (.apiConnection m), history := history,
          modelCalled := true, sentPrompt := some prompt_to_send }
    | .rateLimitError m =>
        { result := .error (.apiRateLimit m), history := history,
          modelCalled := true, sentPrompt := some prompt_to_send }
    | .authError m =>
        { result := .error (.apiAuth m), history := history,
          modelCalled := true, sentPrompt := some prompt_to_send }
    | .statusError c =>
        { result := .error (.apiStatus c), history := history,
          modelCalled := true, sentPrompt := some prompt_to_send }
    | .unexpectedError m =>
        { result := .error (.apiUnexpected m), history := history,
          modelCalled := true, sentPrompt := some prompt_to_send }
    | .ok response_text =>
        match processResponse response_text with
        | .error m =>
            { result := .error (.parseFailure m), history := history,
              modelCalled := true, sentPrompt := some prompt_to_send }
        | .ok round_data =>
            match extractStatements round_data with
            | .error m =>
                { result := .error (.apiUnexpected m), history := history,
                  modelCalled := true, sentPrompt := some prompt_to_send }
            | .ok statements =>
                let history2 := update_session_history env.useRedis history statements
                match topicsLog statements with
                | .error m =>
                    { result := .error (.apiUnexpected m), history := history2,
                      modelCalled := true, sentPrompt := some prompt_to_send }
                | .ok _ =>
                    { result := .ok round_data, history := history2,
                      modelCalled := true, sentPrompt := some prompt_to_send }

/-! ## Preload cache (`preload_next_round`, lines 641-678, and the idle
check of `background_task`, lines 628-637) -/

/-- The shared preload state guarded by `preload_lock`. -/
structure PreloadState where
  preloaded_round : Option Json
  is_preloading : Bool
deriving Repr

/-- `isinstance(round_data, dict) and "error" in round_data` — how every
caller recognizes an error return of `generate_new_round`. -/
def isErrorResult (round_data : Json) : Bool :=
  match round_data with
  | .obj fields => fields.any (fun kv => kv.1 = "error")
  | _ => false

/-- Whether a preload attempt passed its check-and-set or returned as a
no-op. -/
inductive PreloadAction where
  | skipped
  | ran
deriving Repr, DecidableEq

/-- `preload_next_round()` (lines 641-678).  Under the preload lock: if
`is_preloading` is set or a preloaded round exists, return (no-op) —
this early return precedes the `try`, so the flag (owned by the in-flight
attempt) is left alone.  Otherwise set the flag, run a generation (its
returned value is the parameter `next_round`), store it only when it is
not an error dict and is truthy, and clear the flag in the `finally`. -/
def preload_next_round (s : PreloadState) (next_round : Json) :
    PreloadState × PreloadAction :=
  if s.is_preloading ∨ s.preloaded_round.isSome then (s, .skipped)
  else
    let preloaded' :=
      if isErrorResult next_round then s.preloaded_round
      else if pyTruthy next_round then some next_round
      else s.preloaded_round
    ({ preloaded_round := preloaded', is_preloading := false }, .ran)

/-- The idle branch of `background_task` (lines 631-637): start a preload
exactly when no round is cached and none is in flight. -/
def idleCheckStartsPreload (s : PreloadState) : Bool :=
  s.preloaded_round.isNone && !s.is_preloading

/-! ## Broadcast (`broadcast_message`, lines 495-535) -/

/-- `message_data` (lines 510-514): `{type, message}` for `"error"`
events (with the `"Unknown error"` default), `{type, payload}` for
everything else. -/
def messageEnvelope (event_type : String) (payload : Json) : Json :=
  if event_type = "error" then
    Json.obj [("type", Json.str event_type),
      ("message", pyDictGet payload "message" (Json.str "Unknown error"))]
  else
    Json.obj [("type", Json.str event_type), ("payload", payload)]

/-- `broadcast_message(event_type, payload)` (lines 495-535): build the
envelope once, then for every registered client queue serialize it and
enqueue the SSE frame `data: <json>\n\n`; a `TypeError` from `json.dumps`
is caught per client, skipping only that enqueue.  `dumps` abstracts
`json.dumps` together with its possible `TypeError`; on the values
modelled here it is `fun v => .ok (jsonDumps v)`. -/
def broadcast_message (dumps : Json → Except String String)
    (message_queues : List (Nat × List String)) (event_type : String)
    (payload : Json) : List (Nat × List String) :=
  message_queues.map (fun cq =>
    match dumps (messageEnvelope event_type payload) with
    | .ok json_data => (cq.1, cq.2 ++ ["data: " ++ json_data ++ "\n\n"])
    | .error _ => cq)

/-- `json.dumps` never raises on the JSON-shaped values modelled here. -/
def pyJsonDumps : Json → Except String String := fun v => .ok (jsonDumps v)

/-! ## String containment

`strContains big small` states that `small` occurs contiguously inside
`big`; `containsSeq` (defined with the embedding, it also implements
Python's substring `in`) decides it. -/

/-- `small` occurs contiguously in `big`. -/
def strContains (big small : String) : Prop :=
  ∃ pre post : List Char, big.data = pre ++ small.data ++ post

theorem isPrefixCheck_iff (needle : List Char) :
    ∀ hay : List Char, isPrefixCheck needle hay = true ↔ ∃ rest, hay = needle ++ rest := by
  induction needle with
  | nil => intro hay; simp [isPrefixCheck]
  | cons a as ih =>
      intro hay
      cases hay with
      | nil =>
          simp [isPrefixCheck]
      | cons b bs =>
          simp only [isPrefixCheck, Bool.and_eq_true, decide_eq_true_eq, ih bs,
            List.cons_append, List.cons.injEq]
          constructor
          · rintro ⟨hab, rest, hrest⟩
            exact ⟨rest, hab.symm, hrest⟩
          · rintro ⟨rest, hba, hrest⟩
            exact ⟨hba.symm, rest, hrest⟩

theorem containsSeq_iff (needle : List Char) :
    ∀ hay : List Char,
      containsSeq hay needle = true ↔ ∃ pre post, hay = pre ++ needle ++ post := by
  intro hay
  induction hay with
  | nil =>
      simp only [containsSeq, List.isEmpty_iff]
      constructor
      · intro h; exact ⟨[], [], by simp [h]⟩
      · rintro ⟨pre, post, h⟩
        exact (List.append_eq_nil.mp (List.append_eq_nil.mp h.symm).1).2
  | cons c tl ih =>
      simp only [containsSeq, Bool.or_eq_true, isPrefixCheck_iff, ih]
      constructor
      · rintro (⟨rest, hrest⟩ | ⟨pre, post, hpp⟩)
        · exact ⟨[], rest, by simp [hrest]⟩
        · exact ⟨c :: pre, post, by simp [hpp]⟩
      · rintro ⟨pre, post, hpp⟩
        cases pre with
        | nil => exact .inl ⟨post, by simpa using hpp⟩
        | cons p ps =>
            right
            rcases List.cons.injEq .. ▸ hpp with ⟨-, htl⟩
            exact ⟨ps, post, by simpa using htl⟩

instance (big small : String) : Decidable (strContains big small) :=
  decidable_of_iff (containsSeq big.data small.data = true)
    (by rw [containsSeq_iff]; rfl)

theorem strContains_self (s : String) : strContains s s :=
  ⟨[], [], by simp⟩

theorem strContains_appendL (a : String) {c s : String} (h : strContains c s) :
    strContains (a ++ c) s := by
  obtain ⟨pre, post, hd⟩ := h
  exact ⟨a.data ++ pre, post, by rw [String.data_append, hd]; simp [List.append_assoc]⟩

theorem strContains_appendR (d : String) {c s : String} (h : strContains c s) :
    strContains (c ++ d) s := by
  obtain ⟨pre, post, hd⟩ := h
  exact ⟨pre, post ++ d.data, by rw [String.data_append, hd]; simp [List.append_assoc]⟩

theorem strContains_middle (x s y : String) : strContains (x ++ s ++ y) s :=
  strContains_appendR y (strContains_appendL x (strContains_self s))

theorem strContains_trans {a b c : String} (hab : strContains a b)
    (hbc : strContains b c) : strContains a c := by
  obtain ⟨p1, q1, h1⟩ := hab
  obtain ⟨p2, q2, h2⟩ := hbc
  exact ⟨p1 ++ p2, q2 ++ q1, by rw [h1, h2]; simp [List.append_assoc]⟩

theorem joinAll_contains {l : List String} {s : String} (hm : s ∈ l) :
    strContains (joinAll l) s := by
  induction l with
  | nil => cases hm
  | cons x rest ih =>
      rcases List.mem_cons.mp hm with hEq | hMem
      · subst hEq; exact strContains_appendR (joinAll rest) (strContains_self s)
      · exact strContains_appendL x (ih hMem)

/-! ## History-store lemmas -/

theorem update_session_history_count (useRedis : Bool) (h : History) (s : Json) :
    (update_session_history useRedis h s).round_count = h.round_count + 1 := by
  unfold update_session_history update_session_history_redis update_session_history_memory
  split <;> rfl

theorem update_session_history_len (useRedis : Bool) (h : History) (s : Json) :
    (update_session_history useRedis h s).rounds.length
      = min (h.rounds.length + 1) REDIS_MAX_HISTORY := by
  unfold update_session_history update_session_history_redis update_session_history_memory
    REDIS_MAX_HISTORY
  split
  · simp only [List.length_take, List.length_cons]
    omega
  · simp only []
    split
    · next hgt =>
        simp only [List.length_drop, List.length_append, List.length_singleton] at hgt ⊢
        omega
    · next hle =>
        simp only [List.length_append, List.length_singleton] at hle ⊢
        omega

theorem update_session_history_redis_head (h : History) (s : Json) :
    (update_session_history_redis h s).rounds.head? = some s := by
  show ((s :: h.rounds).take 100).head? = some s
  rw [show (100 : Nat) = 99 + 1 from rfl, List.take_succ_cons]
  rfl

theorem update_session_history_memory_last (h : History) (s : Json) :
    (update_session_history_memory h s).rounds.getLast? = some s := by
  unfold update_session_history_memory REDIS_MAX_HISTORY
  simp only []
  split
  · next hgt =>
      rw [List.drop_append_of_le_length
        (by simp only [List.length_append, List.length_singleton] at hgt ⊢; omega)]
      exact List.getLast?_concat _
  · exact List.getLast?_concat _

theorem foldl_update_count (useRedis : Bool) (rs : List Json) :
    ∀ h : History,
      (rs.foldl (update_session_history useRedis) h).round_count
        = h.round_count + rs.length := by
  induction rs with
  | nil => intro h; simp
  | cons r rest ih =>
      intro h
      rw [List.foldl_cons, ih, update_session_history_count]
      simp only [List.length_cons]
      omega

theorem foldl_update_len (useRedis : Bool) (rs : List Json) :
    ∀ h : History, h.rounds.length ≤ REDIS_MAX_HISTORY →
      (rs.foldl (update_session_history useRedis) h).rounds.length
        = min (h.rounds.length + rs.length) REDIS_MAX_HISTORY := by
  induction rs with
  | nil => intro h hle; simpa using (Nat.min_eq_left hle).symm
  | cons r rest ih =>
      intro h hle
      rw [List.foldl_cons, ih _ (by rw [update_session_history_len]; omega),
        update_session_history_len]
      simp only [List.length_cons, REDIS_MAX_HISTORY]
      omega

theorem foldl_update_redis_head (rs : List Json) (hne : rs ≠ []) :
    ∀ h : History,
      (rs.foldl (update_session_history true) h).rounds.head? = rs.getLast? := by
  induction rs with
  | nil => exact absurd rfl hne
  | cons r rest ih =>
      intro h
      rw [List.foldl_cons]
      cases rest with
      | nil =>
          show (update_session_history_redis h r).rounds.head? = _
          rw [update_session_history_redis_head]; rfl
      | cons r2 rest2 =>
          rw [ih (List.cons_ne_nil r2 rest2), List.getLast?_cons_cons]

theorem foldl_update_memory_last (rs : List Json) (hne : rs ≠ []) :
    ∀ h : History,
      (rs.foldl (update_session_history false) h).rounds.getLast? = rs.getLast? := by
  induction rs with
  | nil => exact absurd rfl hne
  | cons r rest ih =>
      intro h
      rw [List.foldl_cons]
      cases rest with
      | nil =>
          show (update_session_history_memory h r).rounds.getLast? = _
          rw [update_session_history_memory_last]; rfl
      | cons r2 rest2 =>
          rw [ih (List.cons_ne_nil r2 rest2), List.getLast?_cons_cons]

/-! ## Prompt-construction lemmas -/

theorem pyTruthyStr_append_left (a b : String) (ha : pyTruthyStr a = true) :
    pyTruthyStr (a ++ b) = true := by
  unfold pyTruthyStr at *
  rw [String.data_append]
  cases hd : a.data with
  | nil => rw [hd] at ha; simp at ha
  | cons c cs => simp [hd]

theorem buildHistoryText_pos (h : History) (hne : h.rounds ≠ []) :
    buildHistoryText h =
      "Here are the previous statements used in this session:\n"
        ++ renderRoundsFrom h.round_count (h.rounds.take 15).length 0 (h.rounds.take 15)
        ++ "\nIMPORTANT: You've now seen " ++ toString (h.rounds.take 15).length
        ++ " previous rounds. Please generate completely new statements that don't overlap with ANY previous topics or facts." := by
  unfold buildHistoryText
  rw [if_pos (List.length_pos.mpr hne)]

theorem pyTruthyStr_buildHistoryText (h : History) (hne : h.rounds ≠ []) :
    pyTruthyStr (buildHistoryText h) = true := by
  rw [buildHistoryText_pos h hne]
  exact pyTruthyStr_append_left _ _ (pyTruthyStr_append_left _ _
    (pyTruthyStr_append_left _ _ (pyTruthyStr_append_left _ _ (by decide))))

theorem promptBase_pos (claude_prompt : String) (h : History) (hne : h.rounds ≠ []) :
    promptBase claude_prompt h =
      claude_prompt ++ "\n\n" ++ buildHistoryText h
        ++ "\n\nIMPORTANT: DO NOT repeat any of the facts or topics above. This is round "
        ++ toString (h.round_count + 1) ++ ", so ensure complete variety." := by
  unfold promptBase
  rw [if_pos (pyTruthyStr_buildHistoryText h hne)]

/-- The fixed phrase whose presence in the payload constitutes the
easter-egg content instruction. -/
def eggMarker : String := "PLEASE INCLUDE AN EASTER EGG about Erin and John Poore"

theorem easterEggInstruction_contains (r : Nat) (hr : r % 3 = 0) :
    strContains (easterEggInstruction r) eggMarker := by
  unfold easterEggInstruction
  rw [if_pos hr]
  exact strContains_appendL _ (by decide)

theorem easterEggInstruction_empty (r : Nat) (hr : ¬ r % 3 = 0) :
    easterEggInstruction r = "" := by
  unfold easterEggInstruction
  rw [if_neg hr]

theorem strContains_tail3 (x a t b : String) :
    strContains (x ++ a ++ t ++ b) (a ++ t ++ b) :=
  ⟨x.data, [], by simp [String.data_append, List.append_assoc]⟩

theorem strContains_split_tail (x a0 a1 t b : String) :
    strContains (x ++ (a0 ++ a1) ++ t ++ b) (a1 ++ t ++ b) :=
  ⟨x.data ++ a0.data, [], by simp [String.data_append, List.append_assoc]⟩

theorem renderRoundsFrom_contains (count n : Nat) (rounds : List Json) :
    ∀ (idx : Nat) (r : Json), r ∈ rounds →
      strContains (renderRoundsFrom count n idx rounds)
        (joinAll ((roundStatements r).map renderStatement)) := by
  induction rounds with
  | nil => intro idx r hr; cases hr
  | cons x rest ih =>
      intro idx r hr
      show strContains
        ("Round " ++ toString ((count : Int) - (n : Int) + (idx : Int) + 1) ++ ":\n"
          ++ joinAll ((roundStatements x).map renderStatement)
          ++ renderRoundsFrom count n (idx + 1) rest) _
      rcases List.mem_cons.mp hr with hEq | hMem
      · subst hEq
        exact strContains_appendR _ (strContains_appendL _ (strContains_self _))
      · exact strContains_appendL _ (ih (idx + 1) r hMem)

/-! ## The claims -/

/-- C1 (counterexample): the claim's most-recent-first ordering fails on
the in-memory fallback.  Appending `"round one"` then `"round two"` to an
empty in-memory history leaves `"round one"` — not the most recently
appended round — at `rounds[0]`. -/
theorem history_order_memory_counterexample :
    ([Json.str "round one", Json.str "round two"].foldl
        (update_session_history false) ⟨0, []⟩).rounds.head?
      = some (Json.str "round one")
    ∧ ¬ (([Json.str "round one", Json.str "round two"].foldl
        (update_session_history false) ⟨0, []⟩).rounds.head?
      = some (Json.str "round two")) := by
  refine ⟨rfl, fun hcontra => ?_⟩
  have h2 : (some "\"round one\"" : Option String) = some "\"round two\"" :=
    congrArg (fun o => Option.map jsonDumps o) hcontra
  exact absurd h2 (by decide)

/-- C1 (amended): after `k` appends from an empty history, both backends
have `round_count = k` and `len(rounds) = min k 100`; the Redis backend
keeps rounds most-recent-first (`rounds[0]` is the last round appended),
while the in-memory fallback appends at the end and truncates to the last
100, so there the LAST element is the round appended most recently. -/
theorem history_append_counts_and_order (rs : List Json) :
    ((rs.foldl (update_session_history true) ⟨0, []⟩).round_count = rs.length
      ∧ (rs.foldl (update_session_history true) ⟨0, []⟩).rounds.length
          = min rs.length 100
      ∧ (rs ≠ [] →
          (rs.foldl (update_session_history true) ⟨0, []⟩).rounds.head?
            = rs.getLast?))
    ∧ ((rs.foldl (update_session_history false) ⟨0, []⟩).round_count = rs.length
      ∧ (rs.foldl (update_session_history false) ⟨0, []⟩).rounds.length
          = min rs.length 100
      ∧ (rs ≠ [] →
          (rs.foldl (update_session_history false) ⟨0, []⟩).rounds.getLast?
            = rs.getLast?)) := by
  refine ⟨⟨?_, ?_, fun hne => foldl_update_redis_head rs hne ⟨0, []⟩⟩,
    ?_, ?_, fun hne => foldl_update_memory_last rs hne ⟨0, []⟩⟩
  · simpa using foldl_update_count true rs ⟨0, []⟩
  · simpa [REDIS_MAX_HISTORY] using
      foldl_update_len true rs ⟨0, []⟩ (by simp [REDIS_MAX_HISTORY])
  · simpa using foldl_update_count false rs ⟨0, []⟩
  · simpa [REDIS_MAX_HISTORY] using
      foldl_update_len false rs ⟨0, []⟩ (by simp [REDIS_MAX_HISTORY])

/-- C1 (witness): the amended ordering at a concrete two-append run. -/
theorem history_append_counts_and_order_witness :
    ([Json.str "r1", Json.str "r2"].foldl
        (update_session_history true) ⟨0, []⟩).rounds.head?
      = some (Json.str "r2")
    ∧ ([Json.str "r1", Json.str "r2"].foldl
        (update_session_history false) ⟨0, []⟩).rounds.getLast?
      = some (Json.str "r2") := by
  refine ⟨?_, ?_⟩
  · exact ((history_append_counts_and_order [Json.str "r1", Json.str "r2"]).1.2.2
      (List.cons_ne_nil _ _)).trans (by rfl)
  · exact ((history_append_counts_and_order [Json.str "r1", Json.str "r2"]).2.2.2
      (List.cons_ne_nil _ _)).trans (by rfl)

/-- C2: the claim holds on the Redis backend, but the in-memory fallback's
reset is broken: `manage_session` assigns `session_history` without a
`global` declaration (line 915), so CPython makes it a function-local
variable and the read on line 914 raises `UnboundLocalError` — the request
fails and the module-level history is never cleared.  This theorem
evaluates the modelled in-memory reset: it raises, and the global history
is unchanged. -/
theorem session_reset_memory_unbound_local (session_history : History) :
    manage_session_reset_memory session_history
      = (.error "UnboundLocalError: cannot access local variable session_history where it is not associated with a value",
          session_history) := rfl

/-- C4: the payload sent to the model contains the easter-egg content
instruction if and only if the round number `round_count + 1` is divisible
by 3, provided the marker phrase does not already occur in the rest of the
payload (the base prompt and rendered history). -/
theorem prompt_easter_egg_iff (claude_prompt : String) (h : History)
    (hbase : ¬ strContains (promptBase claude_prompt h) eggMarker) :
    strContains (promptToSend claude_prompt h) eggMarker
      ↔ (h.round_count + 1) % 3 = 0 := by
  unfold promptToSend
  constructor
  · intro hin
    by_contra hmod
    rw [easterEggInstruction_empty _ hmod, String.append_empty] at hin
    exact hbase hin
  · intro hmod
    exact strContains_appendL _ (easterEggInstruction_contains _ hmod)

/-- C4 (witness): with base prompt `"P"` and an empty history, round 3
(count 2) carries the instruction and round 2 (count 1) does not. -/
theorem prompt_easter_egg_iff_witness :
    strContains (promptToSend "P" ⟨2, []⟩) eggMarker
    ∧ ¬ strContains (promptToSend "P" ⟨1, []⟩) eggMarker := by
  constructor
  · exact (prompt_easter_egg_iff "P" ⟨2, []⟩ (by decide)).mpr (by decide)
  · intro hin
    exact absurd ((prompt_easter_egg_iff "P" ⟨1, []⟩ (by decide)).mp hin) (by decide)

/-- C8: for every history with non-empty rounds, the payload sent to the
model contains the rendered history block (the first 15 stored rounds —
the 15 most recent under the store's most-recent-first order — each
statement as a LIE/TRUTH line), the instruction to avoid overlap with the
listed content, and the phrase naming round number `round_count + 1`. -/
theorem prompt_includes_history (claude_prompt : String) (h : History)
    (hne : h.rounds ≠ []) :
    strContains (promptToSend claude_prompt h) (buildHistoryText h)
    ∧ strContains (promptToSend claude_prompt h)
        ("\nIMPORTANT: You've now seen " ++ toString (h.rounds.take 15).length
          ++ " previous rounds. Please generate completely new statements that don't overlap with ANY previous topics or facts.")
    ∧ (∀ r ∈ h.rounds.take 15, ∀ stmt ∈ roundStatements r,
        strContains (promptToSend claude_prompt h) (renderStatement stmt))
    ∧ strContains (promptToSend claude_prompt h)
        ("This is round " ++ toString (h.round_count + 1)
          ++ ", so ensure complete variety.") := by
  have hp : strContains (promptToSend claude_prompt h) (promptBase claude_prompt h) :=
    strContains_appendR _ (strContains_self _)
  have hbht : strContains (promptBase claude_prompt h) (buildHistoryText h) := by
    rw [promptBase_pos claude_prompt h hne]
    exact strContains_appendR _ (strContains_appendR _ (strContains_appendR _
      (strContains_appendL _ (strContains_self _))))
  have hPbht : strContains (promptToSend claude_prompt h) (buildHistoryText h) :=
    strContains_trans hp hbht
  refine ⟨hPbht, ?_, ?_, ?_⟩
  · refine strContains_trans hPbht ?_
    rw [buildHistoryText_pos h hne]
    exact strContains_tail3 _ _ _ _
  · intro r hr stmt hstmt
    have h1 : strContains (joinAll ((roundStatements r).map renderStatement))
        (renderStatement stmt) :=
      joinAll_contains (List.mem_map_of_mem renderStatement hstmt)
    have h2 := renderRoundsFrom_contains h.round_count (h.rounds.take 15).length
      (h.rounds.take 15) 0 r hr
    have h3 : strContains (buildHistoryText h)
        (renderRoundsFrom h.round_count (h.rounds.take 15).length 0 (h.rounds.take 15)) := by
      rw [buildHistoryText_pos h hne]
      exact strContains_appendR _ (strContains_appendR _ (strContains_appendR _
        (strContains_appendL _ (strContains_self _))))
    exact strContains_trans (strContains_trans (strContains_trans hPbht h3) h2) h1
  · refine strContains_trans hp ?_
    rw [promptBase_pos claude_prompt h hne,
      show ("\n\nIMPORTANT: DO NOT repeat any of the facts or topics above. This is round " : String)
        = "\n\nIMPORTANT: DO NOT repeat any of the facts or topics above. " ++ "This is round "
        from rfl]
    exact strContains_split_tail _ _ _ _ _

/-- C8 (witness): a concrete one-round history — the payload contains the
round-number phrase for round 3 and the rendered LIE line of the stored
statement. -/
theorem prompt_includes_history_witness :
    strContains
      (promptToSend "P"
        ⟨2, [Json.arr [Json.obj [("text", Json.str "alpha"), ("isLie", Json.bool true)]]]⟩)
      "This is round 3, so ensure complete variety."
    ∧ strContains
      (promptToSend "P"
        ⟨2, [Json.arr [Json.obj [("text", Json.str "alpha"), ("isLie", Json.bool true)]]]⟩)
      "- LIE: alpha\n" := by
  constructor
  · exact (prompt_includes_history "P" _ (List.cons_ne_nil _ _)).2.2.2
  · exact (prompt_includes_history "P"
        ⟨2, [Json.arr [Json.obj [("text", Json.str "alpha"), ("isLie", Json.bool true)]]]⟩
        (List.cons_ne_nil _ _)).2.2.1
      (Json.arr [Json.obj [("text", Json.str "alpha"), ("isLie", Json.bool true)]])
      (show _ ∈ List.take 15 [Json.arr [Json.obj [("text", Json.str "alpha"), ("isLie", Json.bool true)]]]
        from List.mem_singleton.mpr rfl)
      (Json.obj [("text", Json.str "alpha"), ("isLie", Json.bool true)])
      (show _ ∈ roundStatements (Json.arr [Json.obj [("text", Json.str "alpha"), ("isLie", Json.bool true)]])
        from List.mem_singleton.mpr rfl)

/-- `stmt["isLie"]` read exactly as the code reads it:
`stmt.get("isLie", False)` under Python truthiness. -/
def statementIsLie (stmt : Json) : Bool :=
  pyTruthy (pyDictGet stmt "isLie" (Json.bool false))

/-- The round-structure invariant the spec states: the round's
`statements` field holds exactly 3 statements, exactly one of them a
lie. -/
def roundWellFormed (round_data : Json) : Prop :=
  (roundStatements (pyDictGet round_data "statements" (Json.arr []))).length = 3
  ∧ ((roundStatements (pyDictGet round_data "statements" (Json.arr []))).filter
      statementIsLie).length = 1

instance (round_data : Json) : Decidable (roundWellFormed round_data) := by
  unfold roundWellFormed
  infer_instance

/-- C3 (counterexample): the code never validates the parsed round's
structure.  A model response whose `statements` list is empty is returned
as a successful round with 0 statements, not 3. -/
theorem round_structure_unvalidated_counterexample :
    (generate_new_round ⟨true, "P", false, .ok "\x7b\"statements\": []\x7d"⟩
        ⟨0, []⟩).result
      = .ok (Json.obj [("statements", Json.arr [])])
    ∧ ¬ roundWellFormed (Json.obj [("statements", Json.arr [])]) :=
  ⟨rfl, by decide⟩

/-- C3 (amended): generation passes the parsed payload through without
structural validation, so a successfully generated round satisfies the
3-statements/exactly-one-lie invariant exactly when the model's parsed
payload does: whenever every payload the model call can produce parses to
a well-formed round, the returned round is well-formed. -/
theorem round_wellformed_of_parsed_wellformed (env : GenEnv) (h : History)
    (v : Json) (hok : (generate_new_round env h).result = .ok v)
    (hwf : ∀ t w, env.apiOutcome = .ok t → processResponse t = .ok w →
      roundWellFormed w) :
    roundWellFormed v := by
  obtain ⟨cc, cp, ur, ao⟩ := env
  cases cc with
  | false => exact absurd hok (by simp [generate_new_round])
  | true =>
      cases hcp : pyTruthyStr cp with
      | false => simp [generate_new_round, hcp] at hok
      | true =>
          cases ao with
          | ok response_text =>
              rcases hproc : processResponse response_text with e1 | round_data
              · simp [generate_new_round, hcp, hproc] at hok
              · rcases hstmt : extractStatements round_data with m | stmts
                · simp [generate_new_round, hcp, hproc, hstmt] at hok
                · rcases htop : topicsLog stmts with m | tl
                  · simp [generate_new_round, hcp, hproc, hstmt, htop] at hok
                  · have hv : round_data = v := by
                      simpa [generate_new_round, hcp, hproc, hstmt, htop] using hok
                    exact hv ▸ hwf response_text round_data rfl hproc
          | connectionError m => simp [generate_new_round, hcp] at hok
          | rateLimitError m => simp [generate_new_round, hcp] at hok
          | authError m => simp [generate_new_round, hcp] at hok
          | statusError c => simp [generate_new_round, hcp] at hok
          | unexpectedError m => simp [generate_new_round, hcp] at hok

/-- C3 (witness): a well-formed three-statement response yields a
well-formed round. -/
theorem round_wellformed_of_parsed_wellformed_witness :
    roundWellFormed (Json.obj [("statements", Json.arr
      [Json.obj [("text", Json.str "s one"), ("isLie", Json.bool false)],
       Json.obj [("text", Json.str "s two"), ("isLie", Json.bool false)],
       Json.obj [("text", Json.str "s three"), ("isLie", Json.bool true)]])]) := by
  refine round_wellformed_of_parsed_wellformed
    ⟨true, "P", false,
      .ok "\x7b\"statements\": [\x7b\"text\": \"s one\", \"isLie\": false\x7d, \x7b\"text\": \"s two\", \"isLie\": false\x7d, \x7b\"text\": \"s three\", \"isLie\": true\x7d]\x7d"⟩
    ⟨0, []⟩ _ rfl ?_
  intro t w ht hw
  injection ht with ht'
  subst ht'
  rw [show processResponse
      "\x7b\"statements\": [\x7b\"text\": \"s one\", \"isLie\": false\x7d, \x7b\"text\": \"s two\", \"isLie\": false\x7d, \x7b\"text\": \"s three\", \"isLie\": true\x7d]\x7d"
    = .ok (Json.obj [("statements", Json.arr
      [Json.obj [("text", Json.str "s one"), ("isLie", Json.bool false)],
       Json.obj [("text", Json.str "s two"), ("isLie", Json.bool false)],
       Json.obj [("text", Json.str "s three"), ("isLie", Json.bool true)]])])
    from rfl] at hw
  injection hw with hw'
  subst hw'
  decide

/-- C5 (counterexample): when both parse attempts fail, the returned
error carries the parse exception's description, not the raw response
text — the raw text is only logged.  At a concrete unparseable response,
the result is a ParseError whose message does not contain the response
text. -/
theorem parse_error_lacks_raw_text :
    (generate_new_round
        ⟨true, "P", false, .ok "the model answered with no structured payload"⟩
        ⟨0, []⟩).result
      = .error (.parseFailure "Expecting value")
    ∧ ¬ strContains (genErrorMessage (.parseFailure "Expecting value"))
        "the model answered with no structured payload" :=
  ⟨rfl, by decide⟩

/-- C5 (amended): the extraction precedence is as claimed — last fenced
code block when any exist, else the first-`{`-to-last-`}` slice when both
braces exist in order, else the whole text; a failed parse is retried
exactly once on the repaired text; and a final failure yields the
ParseError message `Failed to parse response from LLM: <description>`
(the raw text is logged, not carried in the result). -/
theorem extraction_precedence_and_repair (response_text : String) :
    (findCodeBlocks response_text ≠ [] →
        extractPotentialJson response_text
          = pyStrip ((findCodeBlocks response_text).getLast?.getD ""))
    ∧ (findCodeBlocks response_text = [] →
        (0 ≤ pyFind response_text.data '{' ∧
            pyFind response_text.data '{' < pyRFind response_text.data '}' + 1) →
        extractPotentialJson response_text
          = ⟨(response_text.data.drop (pyFind response_text.data '{').toNat).take
              (pyRFind response_text.data '}' + 1 - pyFind response_text.data '{').toNat⟩)
    ∧ (findCodeBlocks response_text = [] →
        ¬(0 ≤ pyFind response_text.data '{' ∧
            pyFind response_text.data '{' < pyRFind response_text.data '}' + 1) →
        extractPotentialJson response_text = response_text)
    ∧ (∀ v, jsonLoads (extractPotentialJson response_text) = .ok v →
        processResponse response_text = .ok v)
    ∧ (∀ e, jsonLoads (extractPotentialJson response_text) = .error e →
        processResponse response_text
          = jsonLoads (repairJson (extractPotentialJson response_text)))
    ∧ (∀ m, genErrorMessage (.parseFailure m)
          = "Failed to parse response from LLM: " ++ m) := by
  refine ⟨?_, ?_, ?_, ?_, ?_, fun m => rfl⟩
  · intro hne
    unfold extractPotentialJson
    have hcond : (!(findCodeBlocks response_text).isEmpty) = true := by
      cases hcb : findCodeBlocks response_text with
      | nil => exact absurd hcb hne
      | cons b bs => rfl
    rw [if_pos hcond]
  · intro hnil hbr
    unfold extractPotentialJson
    rw [if_neg (by simp [hnil]), if_pos hbr]
  · intro hnil hbr
    unfold extractPotentialJson
    rw [if_neg (by simp [hnil]), if_neg hbr]
  · intro v hv
    unfold processResponse
    rw [hv]
  · intro e he
    unfold processResponse
    rw [he]

/-- C5 (witness): the fenced-block scenario — prose around a fenced block
extracts exactly the block's content and parses it; and the repair pass
recovers a block with stray escaped quotes. -/
theorem extraction_precedence_and_repair_witness :
    extractPotentialJson
        "Here is the round:\n```json\n\x7b\"statements\": []\x7d\n```\nHope you like it!"
      = "\x7b\"statements\": []\x7d"
    ∧ processResponse
        "Here is the round:\n```json\n\x7b\"statements\": []\x7d\n```\nHope you like it!"
      = .ok (Json.obj [("statements", Json.arr [])])
    ∧ processResponse "```\n\x7b\"a\": \\\"x\\\"\x7d\n```"
      = .ok (Json.obj [("a", Json.str "x")]) := by
  refine ⟨?_, ?_, ?_⟩
  · exact ((extraction_precedence_and_repair
      "Here is the round:\n```json\n\x7b\"statements\": []\x7d\n```\nHope you like it!").1
      (by decide)).trans (by rfl)
  · exact (extraction_precedence_and_repair
      "Here is the round:\n```json\n\x7b\"statements\": []\x7d\n```\nHope you like it!").2.2.2.1
      (Json.obj [("statements", Json.arr [])]) rfl
  · exact ((extraction_precedence_and_repair
      "```\n\x7b\"a\": \\\"x\\\"\x7d\n```").2.2.2.2.1
      "Expecting value" rfl).trans (by rfl)

/-- C6: when the model client is not configured, or the prompt template
is not loaded, `generate_new_round` returns immediately with the
corresponding descriptive error — the two messages are distinct — leaving
the history untouched and never reaching the model call. -/
theorem generate_precondition_failures (env : GenEnv) (h : History) :
    (env.clientConfigured = false →
      generate_new_round env h =
        { result := .error .clientNotConfigured, history := h,
          modelCalled := false, sentPrompt := none })
    ∧ (env.clientConfigured = true → pyTruthyStr env.claude_prompt = false →
      generate_new_round env h =
        { result := .error .promptNotLoaded, history := h,
          modelCalled := false, sentPrompt := none })
    ∧ genErrorMessage .clientNotConfigured ≠ genErrorMessage .promptNotLoaded := by
  refine ⟨?_, ?_, by decide⟩
  · intro hc
    unfold generate_new_round
    rw [hc]
    rfl
  · intro hc hp
    unfold generate_new_round
    rw [hc, hp]
    rfl

/-- C6 (witness): both precondition failures at concrete module states. -/
theorem generate_precondition_failures_witness :
    generate_new_round ⟨false, "prompt", false, .ok "x"⟩ ⟨0, []⟩ =
      { result := .error .clientNotConfigured, history := ⟨0, []⟩,
        modelCalled := false, sentPrompt := none }
    ∧ generate_new_round ⟨true, "", false, .ok "x"⟩ ⟨0, []⟩ =
      { result := .error .promptNotLoaded, history := ⟨0, []⟩,
        modelCalled := false, sentPrompt := none } :=
  ⟨(generate_precondition_failures ⟨false, "prompt", false, .ok "x"⟩ ⟨0, []⟩).1 rfl,
    (generate_precondition_failures ⟨true, "", false, .ok "x"⟩ ⟨0, []⟩).2.1 rfl rfl⟩

/-- C7: the preload cache never holds an error result — an attempt whose
generation returns an error dict leaves the cache empty, so the next idle
check starts a new preload; an attempt that observes `is_preloading` set
or a cached round is a no-op leaving the state untouched; and every
attempt that passes the check-and-set finishes with `is_preloading`
cleared. -/
theorem preload_cache_invariants (s : PreloadState) (next_round : Json) :
    (s.preloaded_round = none → isErrorResult next_round = true →
        (preload_next_round s next_round).1.preloaded_round = none)
    ∧ (s.is_preloading = true ∨ s.preloaded_round.isSome = true →
        preload_next_round s next_round = (s, .skipped))
    ∧ ((preload_next_round s next_round).2 = .ran →
        (preload_next_round s next_round).1.is_preloading = false)
    ∧ (s.preloaded_round = none → s.is_preloading = false →
        isErrorResult next_round = true →
        idleCheckStartsPreload (preload_next_round s next_round).1 = true) := by
  obtain ⟨pr, ip⟩ := s
  by_cases hcond : (ip = true ∨ (Option.isSome pr) = true)
  · refine ⟨?_, fun _ => ?_, ?_, ?_⟩
    · intro hpr herr
      simp [preload_next_round, hcond, hpr]
    · simp [preload_next_round, hcond]
    · intro hran
      simp [preload_next_round, hcond] at hran
    · intro hpr hip herr
      have hpr' : pr = none := hpr
      have hip' : ip = false := hip
      rcases hcond with hc | hc
      · rw [hip'] at hc; exact absurd hc (by decide)
      · rw [hpr'] at hc; exact absurd hc (by decide)
  · refine ⟨?_, fun hor => absurd hor hcond, ?_, ?_⟩
    · intro hpr herr
      simp [preload_next_round, hcond, herr, hpr]
    · intro _
      simp [preload_next_round, hcond]
    · intro hpr hip herr
      simp [preload_next_round, idleCheckStartsPreload, hcond, herr, hpr]

/-- C7 (witness): a failed generation from the clean state leaves the
cache empty and the idle check firing again; a concurrent attempt is a
no-op; a run clears the flag. -/
theorem preload_cache_invariants_witness :
    (preload_next_round ⟨none, false⟩
        (Json.obj [("error", Json.str "boom")])).1.preloaded_round = none
    ∧ preload_next_round ⟨none, true⟩ (Json.obj [("statements", Json.arr [])])
        = (⟨none, true⟩, .skipped)
    ∧ (preload_next_round ⟨none, false⟩
        (Json.obj [("error", Json.str "boom")])).1.is_preloading = false
    ∧ idleCheckStartsPreload
        (preload_next_round ⟨none, false⟩
          (Json.obj [("error", Json.str "boom")])).1 = true :=
  ⟨(preload_cache_invariants ⟨none, false⟩ (Json.obj [("error", Json.str "boom")])).1
      rfl rfl,
    (preload_cache_invariants ⟨none, true⟩ (Json.obj [("statements", Json.arr [])])).2.1
      (Or.inl rfl),
    (preload_cache_invariants ⟨none, false⟩ (Json.obj [("error", Json.str "boom")])).2.2.1
      rfl,
    (preload_cache_invariants ⟨none, false⟩ (Json.obj [("error", Json.str "boom")])).2.2.2
      rfl rfl rfl⟩

/-- C9: publishing builds the `{type, payload}` envelope (or
`{type, message}` for error events), frames it as `data: <json>` plus a
blank-line terminator, and enqueues it on every registered channel; a
serialization failure skips only the failing enqueue while every
subscriber is still processed and the registry is left intact. -/
theorem broadcast_delivery (dumps : Json → Except String String)
    (message_queues : List (Nat × List String)) (event_type : String)
    (payload : Json) :
    (∀ j, dumps (messageEnvelope event_type payload) = .ok j →
        broadcast_message dumps message_queues event_type payload
          = message_queues.map (fun cq => (cq.1, cq.2 ++ ["data: " ++ j ++ "\n\n"])))
    ∧ (∀ e, dumps (messageEnvelope event_type payload) = .error e →
        broadcast_message dumps message_queues event_type payload = message_queues)
    ∧ (event_type = "error" →
        messageEnvelope event_type payload =
          Json.obj [("type", Json.str event_type),
            ("message", pyDictGet payload "message" (Json.str "Unknown error"))])
    ∧ (event_type ≠ "error" →
        messageEnvelope event_type payload =
          Json.obj [("type", Json.str event_type), ("payload", payload)]) := by
  refine ⟨?_, ?_, ?_, ?_⟩
  · intro j hj
    unfold broadcast_message
    simp only [hj]
  · intro e he
    unfold broadcast_message
    simp only [he]
    exact List.map_id message_queues
  · intro he
    unfold messageEnvelope
    rw [if_pos he]
  · intro hne
    unfold messageEnvelope
    rw [if_neg hne]

/-- C9 (witness): two subscribers each receive the identically framed
error event; the envelope carries the message field. -/
theorem broadcast_delivery_witness :
    broadcast_message pyJsonDumps [(1, []), (2, ["old"])] "error"
        (Json.obj [("message", Json.str "boom")])
      = [(1, ["data: \x7b\"type\": \"error\", \"message\": \"boom\"\x7d\n\n"]),
         (2, ["old", "data: \x7b\"type\": \"error\", \"message\": \"boom\"\x7d\n\n"])] := by
  exact ((broadcast_delivery pyJsonDumps [(1, []), (2, ["old"])] "error"
      (Json.obj [("message", Json.str "boom")])).1
      "\x7b\"type\": \"error\", \"message\": \"boom\"\x7d" rfl).trans (by rfl)

/-- Whether a generation error is of the catch-all unexpected kind (the
`except Exception` arm). -/
def GenError.isUnexpectedKind : GenError → Bool
  | .apiUnexpected _ => true
  | _ => false

/-- C10 (counterexample): an error result does not always leave the
history unchanged.  A response parsing to `{"statements": [1, 2, 3]}`
passes the parse, gets appended to the history, and then the
statement-topics logging loop raises (integers have no `.get`), so
`generate_new_round` returns an unexpected-error result with
`round_count` already incremented and the statements appended. -/
theorem generate_error_after_append_counterexample :
    (generate_new_round ⟨true, "P", false, .ok "\x7b\"statements\": [1, 2, 3]\x7d"⟩
        ⟨0, []⟩).result
      = .error (.apiUnexpected "AttributeError: int object has no attribute get")
    ∧ (generate_new_round ⟨true, "P", false, .ok "\x7b\"statements\": [1, 2, 3]\x7d"⟩
        ⟨0, []⟩).history.round_count = 1
    ∧ (generate_new_round ⟨true, "P", false, .ok "\x7b\"statements\": [1, 2, 3]\x7d"⟩
        ⟨0, []⟩).history.rounds.length = 1 :=
  ⟨rfl, rfl, rfl⟩

/-- C10 (amended): for precondition failures, all model-call error kinds
other than the catch-all unexpected kind, and parse errors, the history is
unchanged — the append happens only after a successful parse; an
unexpected-kind error can also arise in the post-append logging loop, in
which case the history was already updated. -/
theorem generate_error_leaves_history (env : GenEnv) (h : History) (e : GenError)
    (hres : (generate_new_round env h).result = .error e)
    (hkind : e.isUnexpectedKind = false) :
    (generate_new_round env h).history = h := by
  obtain ⟨cc, cp, ur, ao⟩ := env
  cases cc with
  | false => rfl
  | true =>
      cases hcp : pyTruthyStr cp with
      | false => simp [generate_new_round, hcp]
      | true =>
          cases ao with
          | ok response_text =>
              rcases hproc : processResponse response_text with e1 | round_data
              · simp [generate_new_round, hcp, hproc]
              · rcases hstmt : extractStatements round_data with m | stmts
                · simp [generate_new_round, hcp, hproc, hstmt]
                · rcases htop : topicsLog stmts with m | tl
                  · simp only [generate_new_round, hcp, hproc, hstmt, htop] at hres
                    simp at hres
                    rw [← hres] at hkind
                    simp [GenError.isUnexpectedKind] at hkind
                  · simp [generate_new_round, hcp, hproc, hstmt, htop] at hres
          | connectionError m => simp [generate_new_round, hcp]
          | rateLimitError m => simp [generate_new_round, hcp]
          | authError m => simp [generate_new_round, hcp]
          | statusError c => simp [generate_new_round, hcp]
          | unexpectedError m => simp [generate_new_round, hcp]

/-- C10 (witness): an authentication failure leaves the history
unchanged. -/
theorem generate_error_leaves_history_witness :
    (generate_new_round ⟨true, "P", false, .authError "bad key"⟩ ⟨0, []⟩).history
      = ⟨0, []⟩ :=
  generate_error_leaves_history ⟨true, "P", false, .authError "bad key"⟩ ⟨0, []⟩
    (.apiAuth "bad key") rfl rfl

end TwoTruths
